import Mathlib

/-!
Shallow embedding of `src/scripts/fetch_apod.py` (the APOD fetcher script).

The script is a single linear pipeline:
  `get_apod_url` (metadata GET + URL selection) →
  `get_and_check_file_path` (file-name derivation + collision check via `os.walk`) →
  `download_apod` (open file, stream HTTP body to it, per-chunk progress).

The embedding models the external world (the metadata HTTP response, the
directory tree as seen by `os.walk`, the outcome of `open`, the streaming
connection, the response headers and the delivered body chunks) as an explicit
input structure, and Python exceptions as an `Except` error channel.

Library semantics relied on (httpx / CPython, noted where used):
  - `httpx.get(...)` does NOT raise `HTTPStatusError` on a non-2xx status;
    that exception is only raised by `Response.raise_for_status()`, which the
    script never calls.  `.json()` parses the body regardless of the status.
  - `response["k"]` on a Python dict raises `KeyError` when the key is absent.
  - `response.headers["Content-Length"]` raises `KeyError` when absent;
    `int(s)` raises `ValueError` on a non-numeric string.
  - `os.walk(top)` yields the top directory first, then every subdirectory,
    recursively; the script only consumes the `filenames` component of each
    triple, so the walk is modelled as that list of filename lists
    (head = the immediate listing of the working directory).
  - `open(path, "wb")` creates or truncates the file (so a file exists on disk
    from that point on) and may raise `FileNotFoundError` / `PermissionError`.
-/

set_option autoImplicit false

namespace APOD

/-- Python exceptions that can escape the functions of the script. -/
inductive PyExc where
  /-- `KeyError` from a dict / headers subscript on a missing key. -/
  | keyError (key : String)
  /-- `json.JSONDecodeError` from `.json()` on an unparseable body. -/
  | jsonDecodeError
  /-- `TypeError`, e.g. `os.path.basename(None)` when the selected URL is null. -/
  | typeError
  /-- `ValueError` from `int(s)` on a non-numeric string. -/
  | valueError (s : String)
  /-- `FileExistsError` raised by the collision check. -/
  | fileExists (msg : String)
  /-- `FileNotFoundError` from opening / writing the destination. -/
  | fileNotFound (msg : String)
  /-- `PermissionError` from opening / writing the destination. -/
  | permissionError (msg : String)
  /-- `httpx.TimeoutException` during the streaming download. -/
  | timeoutException
  /-- `httpx.TooManyRedirects` during the streaming download. -/
  | tooManyRedirects
  /-- `httpx.HTTPStatusError` carrying a status code.  No code path of the
  script constructs it: the `except HTTPStatusError` clause in
  `get_apod_url` is a dead re-raise, since `httpx.get(...).json()` never
  raises it (only `raise_for_status()` would, and it is never called). -/
  | httpStatusError (code : Nat)
  deriving DecidableEq, Repr

/-- A JSON field value as far as the script inspects it: the metadata fields
it touches (`hdurl`, `url`) are strings or null. -/
inductive JsonVal where
  | null
  | str (s : String)
  deriving DecidableEq, Repr

/-- The parsed JSON object: an association list, as the script only does
key lookups on it. -/
abbrev JsonObj := List (String × JsonVal)

/-- Python dict subscript lookup: `obj[k]` succeeds iff the key is present. -/
def dictGet (obj : JsonObj) (k : String) : Option JsonVal :=
  (obj.find? (fun kv => kv.1 == k)).map (fun kv => kv.2)

/-- Python truthiness of the JSON values the script branches on
(`hdurl if hdurl else ...`): `None` and `""` are falsy, any other string
is truthy. -/
def truthy : JsonVal → Bool
  | .null => false
  | .str s => s ≠ ""

/-- The metadata HTTP response, as delivered by `httpx.get`:
a status code and a body that either parses as a JSON object or does not. -/
structure MetaResponse where
  status : Nat
  body : Option JsonObj
  deriving DecidableEq, Repr

/-- Embedding of `get_apod_url` (fetch_apod.py lines 24-39).

`httpx.get("https://apod.ellanan.com/api").json()` parses the body without
consulting the status code (no `raise_for_status()` call), so the status is
never inspected.  `response["hdurl"]` raises `KeyError` when the key is
absent; otherwise the hdurl value is returned when truthy, else
`response["url"]`.  The `except HTTPStatusError as exc: raise exc` clause is
a no-op re-raise of an exception that is never produced. -/
def get_apod_url (r : MetaResponse) : Except PyExc JsonVal :=
  match r.body with
  | none => .error .jsonDecodeError
  | some obj =>
    match dictGet obj "hdurl" with
    | none => .error (.keyError "hdurl")
    | some hdurl =>
      if truthy hdurl then .ok hdurl
      else
        match dictGet obj "url" with
        | none => .error (.keyError "url")
        | some u => .ok u

/-- Embedding of `os.path.basename` on a POSIX path: the characters after the
last `/` (the whole string when there is no `/`). -/
def basename (p : String) : String :=
  String.mk (p.data.foldl (fun acc c => if c = '/' then [] else acc ++ [c]) [])

/-- Whether a string starts with `/` (for `os.path.join`). -/
def startsWithSlash (s : String) : Bool :=
  match s.data with
  | [] => false
  | c :: _ => c = '/'

/-- Whether a string ends with `/` (for `os.path.join`). -/
def endsWithSlash (s : String) : Bool :=
  match s.data.getLast? with
  | none => false
  | some c => c = '/'

/-- Embedding of `os.path.join(a, b)` on POSIX: an absolute `b` replaces `a`;
otherwise the parts are joined, inserting a `/` unless `a` is empty or
already ends in one. -/
def path_join (a b : String) : String :=
  if startsWithSlash b then b
  else if a.data.isEmpty || endsWithSlash a then a ++ b
  else a ++ "/" ++ b

/-- The directory tree as consumed by the script: `os.walk(os.getcwd())`
yields one `(dirpath, dirnames, filenames)` triple per directory, top
directory first and then every subdirectory recursively; the script reads
only the `filenames` component, so the walk is this list of filename lists
(head = the immediate file listing of the working directory, the tail comes
from subdirectories). -/
abbrev Walk := List (List String)

/-- Whether any directory visited by the walk contains a file of this name
(the double `for` loop of fetch_apod.py lines 54-56, which raises at the
first match). -/
def walk_has_file (walk : Walk) (name : String) : Bool :=
  walk.any (fun files => files.any (fun f => f == name))

/-- Embedding of `get_and_check_file_path` (fetch_apod.py lines 42-59):
derives `name = os.path.basename(url)` and
`path = os.path.join(os.getcwd(), name)`, then scans `os.walk(os.getcwd())`
and raises `FileExistsError` if any visited directory holds a file of that
name; otherwise returns `(name, path)`. -/
def get_and_check_file_path (url cwd : String) (walk : Walk) :
    Except PyExc (String × String) :=
  let name := basename url
  let path := path_join cwd name
  if walk_has_file walk name then
    .error (.fileExists ("File " ++ name ++ " already exists."))
  else
    .ok (name, path)

/-- Python whitespace, stripped from both ends of the argument of `int`. -/
def isPySpace (c : Char) : Bool :=
  c = ' ' || c = '\t' || c = '\n' || c = '\x0d' || c = '\x0c' || c = '\x0b'

/-- Digit-string to number, failing on the empty string or a non-digit
character. -/
def digitsToNat (cs : List Char) : Option Nat :=
  if cs.isEmpty then none
  else if cs.all (fun c => c.isDigit) then
    some (cs.foldl (fun a c => a * 10 + (c.toNat - 48)) 0)
  else none

/-- Embedding of Python `int(s)` on a string: optional surrounding
whitespace, optional sign, then ASCII decimal digits; `none` models the
`ValueError` raised otherwise. -/
def py_int (s : String) : Option Int :=
  let cs := ((s.data.dropWhile isPySpace).reverse.dropWhile isPySpace).reverse
  match cs with
  | '-' :: rest => (digitsToNat rest).map (fun n => -(n : Int))
  | '+' :: rest => (digitsToNat rest).map (fun n => (n : Int))
  | _ => (digitsToNat cs).map (fun n => (n : Int))

/-- Outcome of `open(file_path, "wb")`. -/
inductive OpenResult where
  | ok
  | fileNotFound
  | permissionError
  deriving DecidableEq, Repr

/-- Outcome of establishing the streaming GET connection
(`httpx.stream("GET", url)`): connected, or failed with a timeout or with
too many redirects before any response arrived. -/
inductive ConnectResult where
  | ok
  | timeout
  | tooManyRedirects
  deriving DecidableEq, Repr

/-- How the chunk iteration (`response.iter_bytes()`) ends after delivering
the chunks: normally, or by raising mid-stream. -/
inductive StreamEnd where
  | done
  | timeout
  | tooManyRedirects
  deriving DecidableEq, Repr

/-- Everything external that one run of `download_apod` observes. -/
structure World where
  /-- The metadata HTTP response (`httpx.get("https://apod.ellanan.com/api")`). -/
  meta : MetaResponse
  /-- `os.getcwd()`. -/
  cwd : String
  /-- The filename lists yielded by `os.walk(os.getcwd())`, working directory
  first. -/
  walk : Walk
  /-- What `open(file_path, "wb")` does. -/
  openResult : OpenResult
  /-- What `httpx.stream("GET", url)` does. -/
  connect : ConnectResult
  /-- `response.headers` lookup of `Content-Length`: the raw header value
  when present. -/
  contentLength : Option String
  /-- The body chunks delivered by `response.iter_bytes()` (bytes as `Nat`s). -/
  chunks : List (List Nat)
  /-- How the chunk iteration ends after the chunks above. -/
  streamEnd : StreamEnd
  deriving DecidableEq, Repr

/-- The write loop of fetch_apod.py lines 90-95: each delivered chunk is
appended to the file in order (the `progress.update` call touches only the
progress bar). -/
def stream_to_file (chunks : List (List Nat)) : List Nat :=
  chunks.foldl (fun acc c => acc ++ c) []

/-- Decidable equality of `Except` results, so concrete outcomes can be
compared by `decide`. -/
instance {ε α : Type} [DecidableEq ε] [DecidableEq α] : DecidableEq (Except ε α) := fun a b =>
  match a, b with
  | .error e, .error f =>
    if h : e = f then .isTrue (by rw [h]) else .isFalse (fun hh => by cases hh; exact h rfl)
  | .error _, .ok _ => .isFalse (fun hh => by cases hh)
  | .ok _, .error _ => .isFalse (fun hh => by cases hh)
  | .ok x, .ok y =>
    if h : x = y then .isTrue (by rw [h]) else .isFalse (fun hh => by cases hh; exact h rfl)

/-- What the `try` block of `download_apod` (lines 79-97) produces:
the exception escaping it (if any), the on-disk content of the destination file
(`none` when `open` itself failed, so no file was created/truncated), and
whether the streaming HTTP request for the media was issued. -/
structure TryResult where
  raised : Option PyExc
  fileBytes : Option (List Nat)
  requested : Bool
  deriving DecidableEq, Repr

/-- The `try` block of `download_apod` step by step:
`open(file_path, "wb")` first (creating/truncating the file), then the
streaming request, then `int(response.headers["Content-Length"])`, then the
chunk loop.  Any exception leaves the bytes written so far on disk. -/
def try_download (w : World) : TryResult :=
  match w.openResult with
  | .fileNotFound => ⟨some (.fileNotFound "No such file or directory"), none, false⟩
  | .permissionError => ⟨some (.permissionError "Permission denied"), none, false⟩
  | .ok =>
    match w.connect with
    | .timeout => ⟨some .timeoutException, some [], true⟩
    | .tooManyRedirects => ⟨some .tooManyRedirects, some [], true⟩
    | .ok =>
      match w.contentLength with
      | none => ⟨some (.keyError "Content-Length"), some [], true⟩
      | some s =>
        match py_int s with
        | none => ⟨some (.valueError s), some [], true⟩
        | some _ =>
          let written := stream_to_file w.chunks
          match w.streamEnd with
          | .done => ⟨none, some written, true⟩
          | .timeout => ⟨some .timeoutException, some written, true⟩
          | .tooManyRedirects => ⟨some .tooManyRedirects, some written, true⟩

/-- The `except` clauses of `download_apod` (lines 98-105), in source order:
`TimeoutException` and `TooManyRedirects` are logged and swallowed (normal
return); `FileNotFoundError` and `PermissionError` are re-raised with a
clarified message naming the file; every other exception propagates
unchanged. -/
def handle_exceptions (name : String) (r : TryResult) : Except PyExc Unit :=
  match r.raised with
  | none => .ok ()
  | some .timeoutException => .ok ()
  | some .tooManyRedirects => .ok ()
  | some (.fileNotFound _) =>
    .error (.fileNotFound ("File " ++ name ++ " does not exist."))
  | some (.permissionError _) =>
    .error (.permissionError ("Insufficient permissions to download " ++ name))
  | some e => .error e

/-- The observable outcome of one run of `download_apod`: whether the call
returns normally or raises, whether the streaming HTTP request for the media
was issued, and the destination file left on disk (path and content), if
any. -/
structure Outcome where
  result : Except PyExc Unit
  downloadRequested : Bool
  fileOnDisk : Option (String × List Nat)
  deriving DecidableEq, Repr

/-- Embedding of `download_apod` (fetch_apod.py lines 62-105):
`get_apod_url`, then `get_and_check_file_path` — both OUTSIDE the `try`
block, so their exceptions (including `FileExistsError`) propagate to the
caller unhandled — then the `try` block followed by the `except` clauses.
A null selected URL makes `os.path.basename(None)` raise `TypeError`. -/
def download_apod (w : World) : Outcome :=
  match get_apod_url w.meta with
  | .error e => ⟨.error e, false, none⟩
  | .ok .null => ⟨.error .typeError, false, none⟩
  | .ok (.str url) =>
    match get_and_check_file_path url w.cwd w.walk with
    | .error e => ⟨.error e, false, none⟩
    | .ok (name, path) =>
      let r := try_download w
      ⟨handle_exceptions name r, r.requested, r.fileBytes.map (fun bs => (path, bs))⟩

/-- A baseline run used by concrete witnesses and counterexamples: metadata
status 200 with a null hdurl and url `https://x/img.jpg`, working directory
`/home/u` whose walk sees only `a.txt`, successful open and connection,
Content-Length `3`, body chunks `[1, 2]` then `[3]`, stream ending
normally. -/
def wB : World :=
  ⟨⟨200, some [("hdurl", JsonVal.null), ("url", JsonVal.str "https://x/img.jpg")]⟩,
    "/home/u", [["a.txt"]], .ok, .ok, some "3", [[1, 2], [3]], .done⟩

/-- Helper for claim C5: the value bound to the Content-Length header is
consumed only by the progress bar, so as long as it parses as an integer the
try block yields the same result for any two values. -/
theorem try_download_content_length_irrelevant (meta : MetaResponse) (cwd : String)
    (walk : Walk) (op : OpenResult) (conn : ConnectResult) (chunks : List (List Nat))
    (se : StreamEnd) (v₁ v₂ : String) (t₁ t₂ : Int)
    (h₁ : py_int v₁ = some t₁) (h₂ : py_int v₂ = some t₂) :
    try_download ⟨meta, cwd, walk, op, conn, some v₁, chunks, se⟩ =
      try_download ⟨meta, cwd, walk, op, conn, some v₂, chunks, se⟩ := by
  cases op <;> cases conn <;> cases se <;> simp [try_download, h₁, h₂]

/-- Claim C1, counterexample: with `img.jpg` already present in the working
directory, `download_apod` issues no media request — but the run does NOT
end successfully: the uncaught `FileExistsError` raised by
`get_and_check_file_path` (before the try block) propagates to the caller,
so the result is not a normal return. -/
theorem C1_collision_not_a_silent_skip :
    download_apod { wB with walk := [["img.jpg"]] } =
      ⟨.error (.fileExists "File img.jpg already exists."), false, none⟩ ∧
    (download_apod { wB with walk := [["img.jpg"]] }).result ≠ .ok () := by
  decide

/-- Claim C1, amended: whenever the walk of the working directory contains a
file named like the derived target file name, the collision check
short-circuits — no HTTP download request for the media is issued and no
file is opened — but the run ends with `FileExistsError` raised to the
caller of `download_apod` (the exception is raised before the try block and
no handler catches it), not in a successful skip state. -/
theorem C1_collision_raises_file_exists (w : World) (url : String)
    (h1 : get_apod_url w.meta = .ok (.str url))
    (h2 : walk_has_file w.walk (basename url) = true) :
    (download_apod w).downloadRequested = false ∧
    (download_apod w).result =
      .error (.fileExists ("File " ++ basename url ++ " already exists.")) ∧
    (download_apod w).fileOnDisk = none := by
  simp [download_apod, h1, get_and_check_file_path, h2]

/-- Claim C1, witness: the amended theorem applied to the concrete colliding
run. -/
theorem C1_collision_raises_file_exists_witness :
    (download_apod { wB with walk := [["img.jpg"]] }).downloadRequested = false ∧
    (download_apod { wB with walk := [["img.jpg"]] }).result =
      .error (.fileExists ("File " ++ basename "https://x/img.jpg" ++ " already exists.")) ∧
    (download_apod { wB with walk := [["img.jpg"]] }).fileOnDisk = none :=
  C1_collision_raises_file_exists { wB with walk := [["img.jpg"]] } "https://x/img.jpg"
    (by decide) (by decide)

/-- Claim C2, code bug: the metadata fetch never inspects the HTTP status.
With status 500 and a parseable body, `get_apod_url` proceeds to parse the
body and returns the selected URL instead of raising an error carrying the
status code; the result is identical to the status-200 run.  (The script
never calls `raise_for_status`, so `HTTPStatusError` — which its own
docstring promises for non-200 statuses — cannot be raised.) -/
theorem C2_status_code_ignored :
    get_apod_url ⟨500, some [("hdurl", .str "https://h/a.jpg"),
        ("url", .str "https://x/a.jpg")]⟩ = .ok (.str "https://h/a.jpg") ∧
    get_apod_url ⟨200, some [("hdurl", .str "https://h/a.jpg"),
        ("url", .str "https://x/a.jpg")]⟩ = .ok (.str "https://h/a.jpg") := by
  decide

/-- Claim C3, code bug: the collision scan is recursive, not limited to the
immediate listing.  With a working directory whose immediate listing is
empty but whose subdirectory holds `img.jpg`, the check raises
`FileExistsError` — even though the immediate listing alone (the walk
restricted to its first entry) shows no collision, so an immediate-only
check would have let the download proceed. -/
theorem C3_subdirectory_file_triggers_collision :
    get_and_check_file_path "https://x/img.jpg" "/home/u" [[], ["img.jpg"]] =
      .error (.fileExists "File img.jpg already exists.") ∧
    walk_has_file [[]] (basename "https://x/img.jpg") = false := by
  decide

/-- Claim C4, counterexample: when the hdurl field is ABSENT from the
metadata object, `get_apod_url` raises `KeyError` on the subscript
`response["hdurl"]` instead of selecting the url field. -/
theorem C4_absent_hdurl_raises_key_error :
    get_apod_url ⟨200, some [("url", .str "https://x/img.jpg")]⟩ =
      .error (.keyError "hdurl") ∧
    get_apod_url ⟨200, some [("url", .str "https://x/img.jpg")]⟩ ≠
      .ok (.str "https://x/img.jpg") := by
  decide

/-- Claim C4, amended: when the hdurl field is present but empty or null
(falsy), target resolution selects the url field; when the hdurl field is
absent, `get_apod_url` raises `KeyError` instead of falling back to url. -/
theorem C4_falsy_hdurl_selects_url (r : MetaResponse) (obj : JsonObj) (v u : JsonVal)
    (hb : r.body = some obj) :
    (dictGet obj "hdurl" = some v → truthy v = false → dictGet obj "url" = some u →
      get_apod_url r = .ok u) ∧
    (dictGet obj "hdurl" = none → get_apod_url r = .error (.keyError "hdurl")) := by
  constructor
  · intro hh hv hu
    simp [get_apod_url, hb, hh, hv, hu]
  · intro hh
    simp [get_apod_url, hb, hh]

/-- Claim C4, witness: the amended theorem applied to a response whose hdurl
is null, selecting the url value. -/
theorem C4_falsy_hdurl_selects_url_witness :
    get_apod_url ⟨200, some [("hdurl", JsonVal.null),
        ("url", JsonVal.str "https://x/u.jpg")]⟩ = .ok (.str "https://x/u.jpg") :=
  (C4_falsy_hdurl_selects_url
    ⟨200, some [("hdurl", JsonVal.null), ("url", JsonVal.str "https://x/u.jpg")]⟩
    [("hdurl", JsonVal.null), ("url", JsonVal.str "https://x/u.jpg")]
    JsonVal.null (JsonVal.str "https://x/u.jpg") rfl).1 rfl rfl rfl

/-- Claim C5, counterexample: the outcome of a run is NOT independent of
whether the response advertises a Content-Length header.  On the baseline
run the download succeeds and writes the chunks; on the identical run
without the header, `download_apod` raises `KeyError` (uncaught) and leaves
an empty destination file, so the two outcomes differ. -/
theorem C5_missing_content_length_changes_outcome :
    download_apod wB = ⟨.ok (), true, some ("/home/u/img.jpg", [1, 2, 3])⟩ ∧
    download_apod { wB with contentLength := none } =
      ⟨.error (.keyError "Content-Length"), true, some ("/home/u/img.jpg", [])⟩ ∧
    download_apod wB ≠ download_apod { wB with contentLength := none } := by
  decide

/-- Claim C5, amended: the advertised Content-Length VALUE is observational
only — for any two runs identical except for the advertised value, both of
which parse as integers, the outcome (result, request issuance, file
content) is the same; the PRESENCE of the header, however, does affect
control flow (its absence raises `KeyError`, as the counterexample shows). -/
theorem C5_content_length_value_observational (meta : MetaResponse) (cwd : String)
    (walk : Walk) (op : OpenResult) (conn : ConnectResult) (chunks : List (List Nat))
    (se : StreamEnd) (v₁ v₂ : String) (t₁ t₂ : Int)
    (h₁ : py_int v₁ = some t₁) (h₂ : py_int v₂ = some t₂) :
    download_apod ⟨meta, cwd, walk, op, conn, some v₁, chunks, se⟩ =
      download_apod ⟨meta, cwd, walk, op, conn, some v₂, chunks, se⟩ := by
  simp only [download_apod]
  rw [try_download_content_length_irrelevant meta cwd walk op conn chunks se v₁ v₂ t₁ t₂ h₁ h₂]

/-- Claim C5, witness: the amended theorem applied to the baseline run with
advertised values 3 and 700. -/
theorem C5_content_length_value_observational_witness :
    download_apod ⟨⟨200, some [("hdurl", JsonVal.null),
        ("url", JsonVal.str "https://x/img.jpg")]⟩,
        "/home/u", [["a.txt"]], .ok, .ok, some "3", [[1, 2], [3]], .done⟩ =
      download_apod ⟨⟨200, some [("hdurl", JsonVal.null),
        ("url", JsonVal.str "https://x/img.jpg")]⟩,
        "/home/u", [["a.txt"]], .ok, .ok, some "700", [[1, 2], [3]], .done⟩ :=
  C5_content_length_value_observational _ _ _ _ _ _ _ "3" "700" 3 700 rfl rfl

/-- Claim C6: round-trip integrity.  On every successful download (URL
resolved, no collision, open and connection succeed, Content-Length parses,
the stream ends normally), the byte sequence written to the destination file
is exactly the concatenation (flatten) of the delivered body chunks, and the
run returns normally having issued the media request. -/
theorem C6_roundtrip_integrity (w : World) (url name path : String) (s : String) (t : Int)
    (h1 : get_apod_url w.meta = .ok (.str url))
    (h2 : get_and_check_file_path url w.cwd w.walk = .ok (name, path))
    (ho : w.openResult = .ok) (hc : w.connect = .ok)
    (hcl : w.contentLength = some s) (hp : py_int s = some t)
    (hs : w.streamEnd = .done) :
    download_apod w = ⟨.ok (), true, some (path, w.chunks.flatten)⟩ := by
  have hj : ∀ l : List (List Nat), stream_to_file l = l.flatten := by
    intro l
    have h : ∀ acc : List Nat, l.foldl (fun a c => a ++ c) acc = acc ++ l.flatten := by
      induction l with
      | nil => intro acc; simp
      | cons c cs ih => intro acc; simp [List.foldl, ih, List.append_assoc]
    simpa [stream_to_file] using h []
  simp [download_apod, h1, h2, try_download, ho, hc, hcl, hp, hs, handle_exceptions, hj]

/-- Claim C6, witness: the round-trip theorem applied to the baseline run,
whose chunks `[1, 2]` and `[3]` end up on disk as `[1, 2, 3]`. -/
theorem C6_roundtrip_integrity_witness :
    download_apod wB =
      ⟨.ok (), true, some ("/home/u/img.jpg", ([[1, 2], [3]] : List (List Nat)).flatten)⟩ :=
  C6_roundtrip_integrity wB "https://x/img.jpg" "img.jpg" "/home/u/img.jpg" "3" 3
    (by decide) (by decide) rfl rfl rfl rfl rfl

/-- Claim C7: whenever the metadata object holds a non-empty string under
hdurl, target resolution selects that hdurl value as the download source. -/
theorem C7_hdurl_preferred (r : MetaResponse) (obj : JsonObj) (s : String)
    (hb : r.body = some obj) (hh : dictGet obj "hdurl" = some (.str s)) (hs : s ≠ "") :
    get_apod_url r = .ok (.str s) := by
  simp [get_apod_url, hb, hh, truthy, hs]

/-- Claim C7, witness: the preference theorem applied to a response carrying
both hdurl and url. -/
theorem C7_hdurl_preferred_witness :
    get_apod_url ⟨200, some [("hdurl", JsonVal.str "https://h/a.jpg"),
        ("url", JsonVal.str "https://x/a.jpg")]⟩ = .ok (.str "https://h/a.jpg") :=
  C7_hdurl_preferred
    ⟨200, some [("hdurl", JsonVal.str "https://h/a.jpg"),
      ("url", JsonVal.str "https://x/a.jpg")]⟩
    [("hdurl", JsonVal.str "https://h/a.jpg"), ("url", JsonVal.str "https://x/a.jpg")]
    "https://h/a.jpg" rfl rfl (by decide)

/-- Claim C8: whenever target resolution returns, the returned file name is
exactly `basename url` (the final path segment of the selected URL) and the
returned path is that name joined with the working directory; and the
computation is deterministic and independent of the directory contents —
any second collision-free resolution of the same URL and working directory
returns the same pair. -/
theorem C8_target_resolution_pure (url cwd : String) (walk walk₂ : Walk)
    (name path n₂ p₂ : String)
    (h : get_and_check_file_path url cwd walk = .ok (name, path))
    (h₂ : get_and_check_file_path url cwd walk₂ = .ok (n₂, p₂)) :
    name = basename url ∧ path = path_join cwd (basename url) ∧
      n₂ = name ∧ p₂ = path := by
  simp only [get_and_check_file_path] at h h₂
  split at h
  · exact absurd h (by simp)
  · split at h₂
    · exact absurd h₂ (by simp)
    · simp only [Except.ok.injEq, Prod.mk.injEq] at h h₂
      obtain ⟨hn, hp⟩ := h
      obtain ⟨hn₂, hp₂⟩ := h₂
      exact ⟨hn.symm, hp.symm, hn₂.symm.trans hn, hp₂.symm.trans hp⟩

/-- Claim C8, witness: the resolution theorem applied to the same URL under
two different directory states (one non-empty walk, one empty walk). -/
theorem C8_target_resolution_pure_witness :
    "img.jpg" = basename "https://x/img.jpg" ∧
    "/home/u/img.jpg" = path_join "/home/u" (basename "https://x/img.jpg") ∧
    "img.jpg" = "img.jpg" ∧ "/home/u/img.jpg" = "/home/u/img.jpg" :=
  C8_target_resolution_pure "https://x/img.jpg" "/home/u" [["a.txt"]] []
    "img.jpg" "/home/u/img.jpg" "img.jpg" "/home/u/img.jpg" (by decide) (by decide)

/-- Claim C9: for every run reaching the download step, a timeout or an
excessive-redirect failure — whether at connection time or mid-stream — is
swallowed: `download_apod` returns normally; whereas a `FileNotFoundError`
or `PermissionError` on the destination is re-raised to the caller with the
clarified message naming the file. -/
theorem C9_timeout_swallowed_fs_errors_reraised (w : World) (url name path : String)
    (h1 : get_apod_url w.meta = .ok (.str url))
    (h2 : get_and_check_file_path url w.cwd w.walk = .ok (name, path)) :
    ((w.openResult = .ok ∧ (w.connect = .timeout ∨ w.connect = .tooManyRedirects)) →
      (download_apod w).result = .ok ()) ∧
    ((w.openResult = .ok ∧ w.connect = .ok ∧
        (∃ s t, w.contentLength = some s ∧ py_int s = some t) ∧
        (w.streamEnd = .timeout ∨ w.streamEnd = .tooManyRedirects)) →
      (download_apod w).result = .ok ()) ∧
    (w.openResult = .fileNotFound →
      (download_apod w).result =
        .error (.fileNotFound ("File " ++ name ++ " does not exist."))) ∧
    (w.openResult = .permissionError →
      (download_apod w).result =
        .error (.permissionError ("Insufficient permissions to download " ++ name))) := by
  refine ⟨?_, ?_, ?_, ?_⟩
  · rintro ⟨ho, hc | hc⟩ <;>
      simp [download_apod, h1, h2, try_download, ho, hc, handle_exceptions]
  · rintro ⟨ho, hc, ⟨s, t, hcl, hp⟩, hse | hse⟩ <;>
      simp [download_apod, h1, h2, try_download, ho, hc, hcl, hp, hse, handle_exceptions]
  · intro ho; simp [download_apod, h1, h2, try_download, ho, handle_exceptions]
  · intro ho; simp [download_apod, h1, h2, try_download, ho, handle_exceptions]

/-- Claim C9, witness: the error-handling theorem applied to the baseline
run whose open fails with `FileNotFoundError`, yielding the clarified
re-raised message. -/
theorem C9_timeout_swallowed_fs_errors_reraised_witness :
    (download_apod { wB with openResult := .fileNotFound }).result =
      .error (.fileNotFound ("File " ++ "img.jpg" ++ " does not exist.")) :=
  (C9_timeout_swallowed_fs_errors_reraised { wB with openResult := .fileNotFound }
    "https://x/img.jpg" "img.jpg" "/home/u/img.jpg" (by decide) (by decide)).2.2.1 rfl

/-- Claim C10: the destination file is opened (created or truncated) before
the streaming request, and no failure path cleans it up: for every run
reaching the download step whose open succeeds and which then fails with a
timeout or excessive redirects — at connection time (before any byte
arrives) or mid-stream — `download_apod` returns normally and a destination
file (empty or holding the chunks delivered so far) remains on disk. -/
theorem C10_partial_file_left_on_disk (w : World) (url name path : String)
    (h1 : get_apod_url w.meta = .ok (.str url))
    (h2 : get_and_check_file_path url w.cwd w.walk = .ok (name, path))
    (ho : w.openResult = .ok)
    (he : (w.connect = .timeout ∨ w.connect = .tooManyRedirects) ∨
      (w.connect = .ok ∧ (∃ s t, w.contentLength = some s ∧ py_int s = some t) ∧
        (w.streamEnd = .timeout ∨ w.streamEnd = .tooManyRedirects))) :
    (download_apod w).result = .ok () ∧
    ∃ bytes, (download_apod w).fileOnDisk = some (path, bytes) := by
  rcases he with hc | hc
  · rcases hc with hc | hc <;>
      simp [download_apod, h1, h2, try_download, ho, hc, handle_exceptions]
  · rcases hc with ⟨hc, ⟨s, t, hcl, hp⟩, hse | hse⟩ <;>
      simp [download_apod, h1, h2, try_download, ho, hc, hcl, hp, hse, handle_exceptions]

/-- Claim C10, witness: the no-cleanup theorem applied to the baseline run
whose connection times out before any byte arrives, leaving an (empty) file
on disk while returning normally. -/
theorem C10_partial_file_left_on_disk_witness :
    (download_apod { wB with connect := .timeout }).result = .ok () ∧
    ∃ bytes, (download_apod { wB with connect := .timeout }).fileOnDisk =
      some ("/home/u/img.jpg", bytes) :=
  C10_partial_file_left_on_disk { wB with connect := .timeout }
    "https://x/img.jpg" "img.jpg" "/home/u/img.jpg"
    (by decide) (by decide) rfl (Or.inl (Or.inl rfl))

end APOD
